import Mathlib

/-!
Shallow embedding of the churn-prediction service's core
(`src/api/app.py` and `src/models/train.py`).

Numbers are modelled as exact rationals (`Rat`): every quantity the claims
touch is produced by field operations on decimal inputs, so `Rat` is the
standard shallow embedding of the Python floats.  String-keyed tabular data
is modelled as association lists of named columns.  The trained classifier
is opaque in the source (`model.predict_proba`), so scoring functions take
an arbitrary `predictProba : List Rat → Rat` parameter.
-/

/-! ## sklearn `LabelEncoder`

`LabelEncoder.fit(values)` stores `classes_ = np.unique(values)` — the
distinct values in ascending lexicographic order — and
`transform([v])` returns the index of `v` in `classes_`, raising
`ValueError` when `v` is not a known class.  `strLt` is the code-point
lexicographic order on strings (what `numpy` uses for `<U` dtypes),
written on `String.data` so that it evaluates. -/

def strLt (a b : String) : Bool := decide (a.data < b.data)

def insertSorted (x : String) : List String → List String
  | [] => [x]
  | y :: ys => if strLt x y then x :: y :: ys else y :: insertSorted x ys

def sortStrings : List String → List String
  | [] => []
  | x :: xs => insertSorted x (sortStrings xs)

def dedupSorted : List String → List String
  | [] => []
  | [x] => [x]
  | x :: y :: ys => if x == y then dedupSorted (y :: ys) else x :: dedupSorted (y :: ys)

/-- Model of `np.unique`: sort ascending, drop duplicates. -/
def npUnique (values : List String) : List String := dedupSorted (sortStrings values)

/-- Model of `LabelEncoder.fit`: the stored `classes_`. -/
def labelEncoderFit (values : List String) : List String := npUnique values

/-- Model of `LabelEncoder.transform` on one value: index in `classes_`,
`none` for the `ValueError` raised on an unseen value. -/
def labelEncoderTransform (classes : List String) (v : String) : Option Nat :=
  classes.findIdx? (fun c => c == v)

/-- Model of `LabelEncoder.fit_transform` (the batch/training paths): fit on
the observed column, then transform each value.  Every value is in the fit
set, so the `ValueError` branch (`getD 0`) is unreachable. -/
def labelEncoderFitTransform (values : List String) : List Nat :=
  let classes := labelEncoderFit values
  values.map (fun v => (labelEncoderTransform classes v).getD 0)

/-! ## Single-record categorical encoders (`api_predict`, app.py lines 271-300) -/

def contractVocab : List String := ["Month-to-Month", "One year", "Two year"]

def paymentVocab : List String := ["Electronic check", "Mailed check", "Bank transfer", "Credit card"]

def internetVocab : List String := ["DSL", "Fiber optic", "No"]

/-- Contract-type encoding of `api_predict`: fit on the fixed list, transform,
and on `ValueError` default to `0` (the comment in the source says
"Default to Month-to-Month"). -/
def encodeContract (v : String) : Nat :=
  match labelEncoderTransform (labelEncoderFit contractVocab) v with
  | some c => c
  | none => 0

/-- Payment-method encoding of `api_predict`: on `ValueError` default to `0`. -/
def encodePayment (v : String) : Nat :=
  match labelEncoderTransform (labelEncoderFit paymentVocab) v with
  | some c => c
  | none => 0

/-- Internet-service encoding of `api_predict`: on `ValueError` default to `1`
(the comment in the source says "Default to Fiber optic"). -/
def encodeInternet (v : String) : Nat :=
  match labelEncoderTransform (labelEncoderFit internetVocab) v with
  | some c => c
  | none => 1

/-! ## Request payload and raw record -/

/-- Loosely-typed JSON request body of `/api/predict`: every field may be
absent (`data.get(key, default)` in the source).  The numeric coercions
(`float(...)`, `int(...)`) are modelled as already-typed payload fields; the
claims under study do not concern coercion failure. -/
structure PredictRequest where
  tenure : Option Rat
  monthly_charges : Option Rat
  total_charges : Option Rat
  contract_type : Option String
  payment_method : Option String
  internet_service : Option String
  streaming_tv : Option Int
  streaming_movies : Option Int
  tech_support : Option Int
  online_security : Option Int
deriving DecidableEq, Repr

/-- Validated per-request customer record, after the defaulting in
`api_predict` lines 239-248. -/
structure RawCustomerRecord where
  tenure : Rat
  monthly_charges : Rat
  total_charges : Rat
  contract_type : String
  payment_method : String
  internet_service : String
  streaming_tv : Int
  streaming_movies : Int
  tech_support : Int
  online_security : Int
deriving DecidableEq, Repr

/-- Field extraction of `api_predict` lines 239-248: each `data.get(key,
default)` with the documented defaults. -/
def extractRecord (d : PredictRequest) : RawCustomerRecord where
  tenure := d.tenure.getD 0
  monthly_charges := d.monthly_charges.getD 0
  total_charges := d.total_charges.getD 0
  contract_type := d.contract_type.getD "Month-to-Month"
  payment_method := d.payment_method.getD "Electronic check"
  internet_service := d.internet_service.getD "Fiber optic"
  streaming_tv := d.streaming_tv.getD 0
  streaming_movies := d.streaming_movies.getD 0
  tech_support := d.tech_support.getD 0
  online_security := d.online_security.getD 0

/-- Single-record feature engineering of `api_predict` lines 262-317: the
derived features and the features DataFrame row, in the exact column order of
the source dict. -/
def featureVector (r : RawCustomerRecord) : List Rat :=
  let avg_monthly_charge : Rat := r.total_charges / (r.tenure + 1)
  let contract_value : Rat := r.monthly_charges * r.tenure
  let services_count : Int := r.streaming_tv + r.streaming_movies + r.tech_support + r.online_security
  [r.tenure, r.monthly_charges, r.total_charges,
   (encodeContract r.contract_type : Rat),
   (encodePayment r.payment_method : Rat),
   (encodeInternet r.internet_service : Rat),
   (r.streaming_tv : Rat), (r.streaming_movies : Rat),
   (r.tech_support : Rat), (r.online_security : Rat),
   avg_monthly_charge, contract_value, (services_count : Rat)]

/-! ## Risk tiers and recommendations -/

inductive RiskTier where
  | Low
  | Medium
  | High
deriving DecidableEq, Repr

/-- Risk-level classification of `api_predict` lines 359-370. -/
def risk_level (churn_prob : Rat) : RiskTier :=
  if churn_prob < 3/10 then RiskTier.Low
  else if churn_prob < 7/10 then RiskTier.Medium
  else RiskTier.High

/-- Recommendation generator (`get_recommendations`, app.py lines 568-592).
It receives the churn probability and the RAW request dict `data` (not the
defaulted record): the two conditional recommendations test
`customer_data.get(key) == value`, which is false when the key is absent. -/
def get_recommendations (churn_prob : Rat) (customer_data : PredictRequest) : List String :=
  (if churn_prob > 7/10 then
    ["🚨 High churn risk - Immediate intervention required",
     "💰 Offer loyalty discount or premium features",
     "📞 Schedule personal call from retention team"]
   else if churn_prob > 4/10 then
    ["⚠️  Monitor closely for changes in usage patterns",
     "📧 Send targeted re-engagement email campaign",
     "🎁 Offer upgrade incentives or bundled services"]
   else
    ["✅ Customer appears satisfied",
     "📊 Continue monitoring engagement metrics",
     "⭐ Consider for referral program"])
  ++ (if customer_data.contract_type == some "Month-to-Month" then
        ["📝 Encourage upgrade to annual contract"] else [])
  ++ (if customer_data.tech_support == some 0 then
        ["🛠️  Promote tech support subscription"] else [])

/-- Successful response body of `/api/predict` (probability, binary
prediction via `int(churn_prob > 0.5)`, risk tier, recommendations). -/
structure ScoreResult where
  churn_probability : Rat
  churn_prediction : Nat
  risk_level : RiskTier
  recommendations : List String
deriving DecidableEq, Repr

/-- The successful path of `api_predict`: extract/default the fields, build
the feature row, score it with the (opaque) model, classify and recommend. -/
def api_predict_result (predictProba : List Rat → Rat) (d : PredictRequest) : ScoreResult :=
  let r := extractRecord d
  let churn_prob := predictProba (featureVector r)
  { churn_probability := churn_prob
    churn_prediction := if churn_prob > 1/2 then 1 else 0
    risk_level := risk_level churn_prob
    recommendations := get_recommendations churn_prob d }

/-- The successful path of `api_predict` including the database insert
(app.py lines 344-356).  The insert's outcome is an `Except`; the source
wraps it in `try/except` whose handler only prints a warning ("Continue even
if DB save fails"), so both branches build the same response. -/
def api_predict_with_db (predictProba : List Rat → Rat)
    (dbInsert : Rat → Nat → Except String Unit) (d : PredictRequest) : ScoreResult :=
  let r := extractRecord d
  let churn_prob := predictProba (featureVector r)
  let churn_prediction : Nat := if churn_prob > 1/2 then 1 else 0
  match dbInsert churn_prob churn_prediction with
  | Except.ok _ =>
      { churn_probability := churn_prob
        churn_prediction := churn_prediction
        risk_level := risk_level churn_prob
        recommendations := get_recommendations churn_prob d }
  | Except.error _ =>
      { churn_probability := churn_prob
        churn_prediction := churn_prediction
        risk_level := risk_level churn_prob
        recommendations := get_recommendations churn_prob d }

/-! ## Batch scoring (`api_batch_predict`, app.py lines 406-503) and the
training-time preprocessing (`preprocess_data`, train.py lines 27-70).

A CSV, once read by `pd.read_csv`, is modelled as named columns: numeric
columns and string columns, each an association list.  `df[name]` on a
missing column raises `KeyError(name)`, whose `str()` is the quoted column
name; `api_batch_predict` wraps everything in one `try/except` that turns
the exception text into the 400 error response, so column access is
modelled in the `Except String` monad. -/

structure CsvTable where
  nRows : Nat
  numCols : List (String × List Rat)
  strCols : List (String × List String)
deriving DecidableEq, Repr

/-- Column lookup: `df[name]`, failing like `str(KeyError(name))`. -/
def getNumCol (df : CsvTable) (name : String) : Except String (List Rat) :=
  match df.numCols.find? (fun c => c.1 == name) with
  | some c => Except.ok c.2
  | none => Except.error ("'" ++ name ++ "'")

/-- Column lookup for a string-valued column, failing like `str(KeyError(name))`. -/
def getStrCol (df : CsvTable) (name : String) : Except String (List String) :=
  match df.strCols.find? (fun c => c.1 == name) with
  | some c => Except.ok c.2
  | none => Except.error ("'" ++ name ++ "'")

/-- Vectorized `df['total_charges'] / (df['tenure'] + 1)` — identical formula
in app.py line 430 and train.py line 36. -/
def avgMonthlyChargeCol (total_charges tenure : List Rat) : List Rat :=
  List.zipWith (fun tc t => tc / (t + 1)) total_charges tenure

/-- Vectorized `df['monthly_charges'] * df['tenure']` — app.py line 431 and
train.py line 37. -/
def contractValueCol (monthly_charges tenure : List Rat) : List Rat :=
  List.zipWith (fun m t => m * t) monthly_charges tenure

/-- Vectorized sum of the four service flags — app.py lines 432-435 and
train.py lines 40-45. -/
def servicesCountCol (streaming_tv streaming_movies tech_support online_security : List Rat) :
    List Rat :=
  List.zipWith (fun a b => a + b)
    (List.zipWith (fun a b => a + b)
      (List.zipWith (fun a b => a + b) streaming_tv streaming_movies) tech_support)
    online_security

/-- Row extraction `X = df[feature_cols]` followed by per-row scoring: the
feature row of customer `i`, in the exact `feature_cols` order shared by
app.py lines 449-454 and train.py lines 57-62. -/
def batchFeatureRows (n : Nat)
    (tenure monthly_charges total_charges : List Rat)
    (streaming_tv streaming_movies tech_support online_security : List Rat)
    (contract_encoded payment_encoded internet_encoded : List Nat)
    (avg_monthly_charge contract_value services_count : List Rat) : List (List Rat) :=
  (List.range n).map (fun i =>
    [tenure.getD i 0, monthly_charges.getD i 0, total_charges.getD i 0,
     (contract_encoded.getD i 0 : Rat), (payment_encoded.getD i 0 : Rat),
     (internet_encoded.getD i 0 : Rat),
     streaming_tv.getD i 0, streaming_movies.getD i 0,
     tech_support.getD i 0, online_security.getD i 0,
     avg_monthly_charge.getD i 0, contract_value.getD i 0, services_count.getD i 0])

/-- Training-time feature matrix of `preprocess_data` (train.py): same derived
columns and the same `feature_cols` order as the batch path, with encoders fit
on the observed categories of the table. -/
def preprocess_data (n : Nat)
    (tenure monthly_charges total_charges : List Rat)
    (streaming_tv streaming_movies tech_support online_security : List Rat)
    (contract_type payment_method internet_service : List String) : List (List Rat) :=
  batchFeatureRows n tenure monthly_charges total_charges
    streaming_tv streaming_movies tech_support online_security
    (labelEncoderFitTransform contract_type)
    (labelEncoderFitTransform payment_method)
    (labelEncoderFitTransform internet_service)
    (avgMonthlyChargeCol total_charges tenure)
    (contractValueCol monthly_charges tenure)
    (servicesCountCol streaming_tv streaming_movies tech_support online_security)

/-- Per-row tier assignment of the batch path: `pd.cut(predictions,
bins=[0, 0.3, 0.7, 1.0], labels=['Low', 'Medium', 'High'])`.  `pd.cut` with
default `right=True` and without `include_lowest` buckets into the
left-open intervals (0, 0.3], (0.3, 0.7], (0.7, 1.0]; a value outside all
three bins (0 itself included) gets `NaN`, modelled as `none`. -/
def batch_risk_level (p : Rat) : Option RiskTier :=
  if 0 < p ∧ p ≤ 3/10 then some RiskTier.Low
  else if 3/10 < p ∧ p ≤ 7/10 then some RiskTier.Medium
  else if 7/10 < p ∧ p ≤ 1 then some RiskTier.High
  else none

/-- One output row of the batch response: the prediction columns appended to
the uploaded row (the original cells, dropped here, play no part in any
claim). -/
structure BatchRow where
  churn_probability : Rat
  churn_prediction : Nat
  risk_level : Option RiskTier
deriving DecidableEq, Repr

/-- Batch response body: the summary of app.py lines 469-475 and the
(100-capped) result rows. -/
structure BatchResult where
  total_customers : Nat
  high_risk : Nat
  medium_risk : Nat
  low_risk : Nat
  avg_churn_probability : Rat
  results : List BatchRow
deriving DecidableEq, Repr

/-- The body of `api_batch_predict`: column accesses in the source's
evaluation order (each may raise `KeyError`), vectorized feature derivation,
per-call `fit_transform` encoders, scoring, per-row tiers, and the summary.
The summary counts use `>`/`>=`/`<=`/`<` exactly as in lines 471-473, and the
mean is over all rows while `results` is capped at 100 (line 488). -/
def api_batch_predict (predictProba : List Rat → Rat) (df : CsvTable) :
    Except String BatchResult := do
  let total_charges ← getNumCol df "total_charges"
  let tenure ← getNumCol df "tenure"
  let avg_monthly_charge := avgMonthlyChargeCol total_charges tenure
  let monthly_charges ← getNumCol df "monthly_charges"
  let contract_value := contractValueCol monthly_charges tenure
  let streaming_tv ← getNumCol df "streaming_tv"
  let streaming_movies ← getNumCol df "streaming_movies"
  let tech_support ← getNumCol df "tech_support"
  let online_security ← getNumCol df "online_security"
  let services_count := servicesCountCol streaming_tv streaming_movies tech_support online_security
  let contract_type ← getStrCol df "contract_type"
  let payment_method ← getStrCol df "payment_method"
  let internet_service ← getStrCol df "internet_service"
  let contract_encoded := labelEncoderFitTransform contract_type
  let payment_encoded := labelEncoderFitTransform payment_method
  let internet_encoded := labelEncoderFitTransform internet_service
  let rows := batchFeatureRows df.nRows tenure monthly_charges total_charges
    streaming_tv streaming_movies tech_support online_security
    contract_encoded payment_encoded internet_encoded
    avg_monthly_charge contract_value services_count
  let predictions := rows.map predictProba
  let resultRows := predictions.map (fun p =>
    { churn_probability := p
      churn_prediction := if p > 1/2 then 1 else 0
      risk_level := batch_risk_level p : BatchRow })
  Except.ok
    { total_customers := df.nRows
      high_risk := predictions.countP (fun p => decide (p > 7/10))
      medium_risk := predictions.countP (fun p => decide (3/10 ≤ p) && decide (p ≤ 7/10))
      low_risk := predictions.countP (fun p => decide (p < 3/10))
      avg_churn_probability := predictions.sum / (predictions.length : Rat)
      results := resultRows.take 100 }

/-! ## Shared helper definitions and lemmas for the verification -/

/-- Request body with every field omitted. -/
def emptyRequest : PredictRequest :=
  ⟨none, none, none, none, none, none, none, none, none, none⟩

/-- Request body supplying every documented default explicitly. -/
def explicitDefaultsRequest : PredictRequest :=
  ⟨some 0, some 0, some 0, some "Month-to-Month", some "Electronic check",
   some "Fiber optic", some 0, some 0, some 0, some 0⟩

/-- An opaque classifier returning a fixed probability, for concrete runs. -/
def constModel (p : Rat) : List Rat → Rat := fun _ => p

theorem zipWith_getD_of_lt (f : Rat → Rat → Rat) (a b : List Rat) (i : Nat)
    (ha : i < a.length) (hb : i < b.length) :
    (List.zipWith f a b).getD i 0 = f (a.getD i 0) (b.getD i 0) := by
  rw [List.getD_eq_getElem _ _ (by simp [List.length_zipWith]; omega),
      List.getD_eq_getElem _ _ ha, List.getD_eq_getElem _ _ hb, List.getElem_zipWith]

/-! ## C1 -/

/-- C1 counterexample: the claim assigns payment codes by the listed
enumeration order (Electronic check → 0), but the single-record encoder is an
sklearn `LabelEncoder`, which numbers the classes in sorted order: on the
concrete input "Electronic check" the code is 2, not 0. -/
theorem payment_code_enumeration_order_cex :
    encodePayment "Electronic check" = 2 ∧ encodePayment "Electronic check" ≠ 0 := by
  decide

/-- C1 (amended): on every single-record scoring call the categorical codes
are assigned by the lexicographically sorted order of each fixed vocabulary:
contract_type Month-to-Month→0, One year→1, Two year→2; payment_method
Bank transfer→0, Credit card→1, Electronic check→2, Mailed check→3;
internet_service DSL→0, Fiber optic→1, No→2. -/
theorem encoder_codes_sorted_order :
    labelEncoderFit contractVocab = ["Month-to-Month", "One year", "Two year"] ∧
    labelEncoderFit paymentVocab =
      ["Bank transfer", "Credit card", "Electronic check", "Mailed check"] ∧
    labelEncoderFit internetVocab = ["DSL", "Fiber optic", "No"] ∧
    encodeContract "Month-to-Month" = 0 ∧ encodeContract "One year" = 1 ∧
    encodeContract "Two year" = 2 ∧
    encodePayment "Bank transfer" = 0 ∧ encodePayment "Credit card" = 1 ∧
    encodePayment "Electronic check" = 2 ∧ encodePayment "Mailed check" = 3 ∧
    encodeInternet "DSL" = 0 ∧ encodeInternet "Fiber optic" = 1 ∧ encodeInternet "No" = 2 := by
  decide

/-! ## C4 -/

/-- C4: for every probability p in [0,1] the single-record scorer assigns
Low iff p ∈ [0, 0.3), Medium iff p ∈ [0.3, 0.7), High iff p ∈ [0.7, 1];
in particular p = 0.3 yields Medium and p = 0.7 yields High. -/
theorem risk_tier_intervals (p : Rat) (h0 : 0 ≤ p) (h1 : p ≤ 1) :
    (risk_level p = RiskTier.Low ↔ 0 ≤ p ∧ p < 3/10) ∧
    (risk_level p = RiskTier.Medium ↔ 3/10 ≤ p ∧ p < 7/10) ∧
    (risk_level p = RiskTier.High ↔ 7/10 ≤ p ∧ p ≤ 1) ∧
    risk_level (3/10) = RiskTier.Medium ∧ risk_level (7/10) = RiskTier.High := by
  refine ⟨?_, ?_, ?_, by rw [risk_level]; norm_num, by rw [risk_level]; norm_num⟩ <;>
    rw [risk_level] <;> split_ifs with ha hb <;>
    simp only [reduceCtorEq, false_iff, true_iff, not_and, not_lt] <;>
    first
      | exact ⟨h0, ha⟩
      | exact ⟨by linarith, hb⟩
      | exact ⟨by linarith, h1⟩
      | (intro h; linarith)

/-- C4 witness at p = 1/2. -/
theorem risk_tier_intervals_witness :
    (0:Rat) ≤ 1/2 ∧ (1/2:Rat) ≤ 1 ∧
    (risk_level (1/2) = RiskTier.Medium ↔ 3/10 ≤ (1/2:Rat) ∧ (1/2:Rat) < 7/10) :=
  ⟨by norm_num, by norm_num,
   (risk_tier_intervals (1/2) (by norm_num) (by norm_num)).2.1⟩

/-! ## C10 -/

/-- C10: once the model has produced a probability, a failure of the database
insert does not change the response: for every classifier, every database
behaviour and every request, the response equals the plain successful-path
response, and equals the response under a database that always succeeds. -/
theorem db_failure_does_not_change_response (predictProba : List Rat → Rat)
    (dbInsert : Rat → Nat → Except String Unit) (d : PredictRequest) :
    api_predict_with_db predictProba dbInsert d = api_predict_result predictProba d ∧
    api_predict_with_db predictProba dbInsert d =
      api_predict_with_db predictProba (fun _ _ => Except.ok ()) d := by
  constructor <;>
    · rw [api_predict_with_db]
      cases dbInsert (predictProba (featureVector (extractRecord d)))
        (if predictProba (featureVector (extractRecord d)) > 1/2 then 1 else 0) <;> rfl

/-! ## C7 -/

theorem encodeContract_of_not_mem (s : String) (hs : s ∉ contractVocab) :
    encodeContract s = 0 := by
  have hfit : labelEncoderFit contractVocab = ["Month-to-Month", "One year", "Two year"] := by
    decide
  have hnone : labelEncoderTransform (labelEncoderFit contractVocab) s = none := by
    rw [hfit, labelEncoderTransform, List.findIdx?_eq_none_iff]
    intro x hx
    simp only [beq_eq_false_iff_ne]
    rintro rfl
    apply hs
    simp only [List.mem_cons, List.not_mem_nil, or_false] at hx
    simp only [contractVocab, List.mem_cons, List.not_mem_nil, or_false]
    tauto
  rw [encodeContract, hnone]

theorem encodePayment_of_not_mem (s : String) (hs : s ∉ paymentVocab) :
    encodePayment s = 0 := by
  have hfit : labelEncoderFit paymentVocab =
      ["Bank transfer", "Credit card", "Electronic check", "Mailed check"] := by decide
  have hnone : labelEncoderTransform (labelEncoderFit paymentVocab) s = none := by
    rw [hfit, labelEncoderTransform, List.findIdx?_eq_none_iff]
    intro x hx
    simp only [beq_eq_false_iff_ne]
    rintro rfl
    apply hs
    simp only [List.mem_cons, List.not_mem_nil, or_false] at hx
    simp only [paymentVocab, List.mem_cons, List.not_mem_nil, or_false]
    tauto
  rw [encodePayment, hnone]

theorem encodeInternet_of_not_mem (s : String) (hs : s ∉ internetVocab) :
    encodeInternet s = 1 := by
  have hfit : labelEncoderFit internetVocab = ["DSL", "Fiber optic", "No"] := by decide
  have hnone : labelEncoderTransform (labelEncoderFit internetVocab) s = none := by
    rw [hfit, labelEncoderTransform, List.findIdx?_eq_none_iff]
    intro x hx
    simp only [beq_eq_false_iff_ne]
    rintro rfl
    apply hs
    simp only [List.mem_cons, List.not_mem_nil, or_false] at hx
    simp only [internetVocab, List.mem_cons, List.not_mem_nil, or_false]
    tauto
  rw [encodeInternet, hnone]

/-- C7 counterexample: the claim says an unknown payment_method gets the code
of Electronic check; on the concrete unknown value "Cash" the encoder
substitutes 0, which is Bank transfer's code, while Electronic check's code
is 2. -/
theorem unknown_payment_default_cex :
    encodePayment "Cash" = 0 ∧ encodePayment "Electronic check" = 2 ∧
    encodePayment "Cash" ≠ encodePayment "Electronic check" := by decide

/-- C7 (amended): scoring a request with out-of-vocabulary categorical values
never fails — the (total) encoders substitute fixed default codes: an unknown
contract_type gets Month-to-Month's code 0 (in particular "Quarterly" does),
an unknown internet_service gets Fiber optic's code 1, and an unknown
payment_method gets code 0 — which is Bank transfer's code, not Electronic
check's. -/
theorem unknown_category_default_codes (s t u : String)
    (hs : s ∉ contractVocab) (ht : t ∉ paymentVocab) (hu : u ∉ internetVocab) :
    encodeContract s = encodeContract "Month-to-Month" ∧
    encodePayment t = encodePayment "Bank transfer" ∧
    encodePayment t ≠ encodePayment "Electronic check" ∧
    encodeInternet u = encodeInternet "Fiber optic" ∧
    encodeContract "Quarterly" = encodeContract "Month-to-Month" := by
  refine ⟨?_, ?_, ?_, ?_, ?_⟩
  · rw [encodeContract_of_not_mem s hs]; decide
  · rw [encodePayment_of_not_mem t ht]; decide
  · rw [encodePayment_of_not_mem t ht]; decide
  · rw [encodeInternet_of_not_mem u hu]; decide
  · decide

/-- C7 witness at the concrete unknown values "Quarterly", "Cash",
"Satellite". -/
theorem unknown_category_default_codes_witness :
    "Quarterly" ∉ contractVocab ∧ "Cash" ∉ paymentVocab ∧ "Satellite" ∉ internetVocab ∧
    (encodeContract "Quarterly" = encodeContract "Month-to-Month" ∧
     encodePayment "Cash" = encodePayment "Bank transfer" ∧
     encodePayment "Cash" ≠ encodePayment "Electronic check" ∧
     encodeInternet "Satellite" = encodeInternet "Fiber optic" ∧
     encodeContract "Quarterly" = encodeContract "Month-to-Month") :=
  ⟨by decide, by decide, by decide,
   unknown_category_default_codes "Quarterly" "Cash" "Satellite"
     (by decide) (by decide) (by decide)⟩

/-! ## C8 -/

/-- C8: for every record with tenure ≥ 0 the avg_monthly_charge entry divides
by tenure + 1, whose value is strictly positive (never zero), in both the
single-record path (feature index 10) and the vectorized batch/training
column; with tenure = 0 and total_charges = 100 the entry is exactly 100. -/
theorem division_guard_avg_monthly_charge (r : RawCustomerRecord) (hr : 0 ≤ r.tenure)
    (total_charges tenure : List Rat) (i : Nat)
    (h1 : i < total_charges.length) (h2 : i < tenure.length)
    (h3 : 0 ≤ tenure.getD i 0) :
    0 < r.tenure + 1 ∧
    (featureVector r).getD 10 0 = r.total_charges / (r.tenure + 1) ∧
    0 < tenure.getD i 0 + 1 ∧
    (avgMonthlyChargeCol total_charges tenure).getD i 0 =
      total_charges.getD i 0 / (tenure.getD i 0 + 1) ∧
    (r.tenure = 0 → r.total_charges = 100 → (featureVector r).getD 10 0 = 100) := by
  refine ⟨by linarith, by simp [featureVector], by linarith,
    zipWith_getD_of_lt _ _ _ _ h1 h2, ?_⟩
  intro h0 h100
  norm_num [featureVector, h0, h100]

/-- Concrete record with tenure 0 and total_charges 100 (spec §8's
division-guard scenario). -/
def zeroTenureRecord : RawCustomerRecord where
  tenure := 0
  monthly_charges := 0
  total_charges := 100
  contract_type := "Month-to-Month"
  payment_method := "Electronic check"
  internet_service := "Fiber optic"
  streaming_tv := 0
  streaming_movies := 0
  tech_support := 0
  online_security := 0

/-- C8 witness: tenure = 0, total_charges = 100 gives avg_monthly_charge
exactly 100, and the batch column at a concrete row behaves identically. -/
theorem division_guard_avg_monthly_charge_witness :
    (featureVector zeroTenureRecord).getD 10 0 = 100 ∧
    (avgMonthlyChargeCol [100] [0]).getD 0 0 = (100:Rat) / (0 + 1) := by
  have h := division_guard_avg_monthly_charge zeroTenureRecord
    (le_refl 0) [100] [0] 0 (by simp) (by simp) (by simp)
  exact ⟨h.2.2.2.2 rfl rfl, by simpa using h.2.2.2.1⟩

/-! ## C2 -/

/-- A one-row upload with all required columns (spec §8 scenario 1 values). -/
def singleRowTable : CsvTable where
  nRows := 1
  numCols := [("tenure", [1]), ("monthly_charges", [20]), ("total_charges", [20]),
              ("streaming_tv", [0]), ("streaming_movies", [0]), ("tech_support", [0]),
              ("online_security", [0])]
  strCols := [("contract_type", ["Month-to-Month"]), ("payment_method", ["Electronic check"]),
              ("internet_service", ["Fiber optic"])]

/-- C2 counterexample: on a concrete one-row batch whose model probability is
exactly 0.3, the batch row is tiered Low while the single-record scorer
assigns Medium to 0.3 (the claim says they agree and that 0.3 is Medium);
and with probability 0, the batch row receives no tier at all (`pd.cut`
yields NaN outside its left-open bins), though the claim says every row
receives one. -/
theorem batch_tier_boundary_cex :
    (api_batch_predict (constModel (3/10)) singleRowTable).map
        (fun r => r.results.map (fun row => row.risk_level)) =
      Except.ok [some RiskTier.Low] ∧
    risk_level (3/10) = RiskTier.Medium ∧
    (api_batch_predict (constModel 0) singleRowTable).map
        (fun r => r.results.map (fun row => row.risk_level)) =
      Except.ok [(none : Option RiskTier)] := by
  refine ⟨?_, by rw [risk_level]; norm_num, ?_⟩ <;>
    · simp only [api_batch_predict, getNumCol, getStrCol, singleRowTable, constModel,
        batchFeatureRows, List.find?, Except.map, bind, Except.bind, List.range,
        List.range.loop, List.map, Except.map]
      norm_num [batch_risk_level]
      simp

/-- C2 (amended): the batch path tiers each row by `pd.cut` over the
left-open intervals (0, 0.3], (0.3, 0.7], (0.7, 1.0]: for every probability
p in [0,1] other than the boundary points 0, 0.3, 0.7 it assigns exactly the
single-record tier, while at p = 0 the batch row gets no tier, at p = 0.3 it
gets Low (the single scorer: Medium) and at p = 0.7 it gets Medium (the
single scorer: High). -/
theorem batch_tier_matches_single_off_boundaries (p : Rat) (h0 : 0 ≤ p) (h1 : p ≤ 1)
    (hz : p ≠ 0) (h3 : p ≠ 3/10) (h7 : p ≠ 7/10) :
    batch_risk_level p = some (risk_level p) ∧
    batch_risk_level 0 = none ∧
    batch_risk_level (3/10) = some RiskTier.Low ∧ risk_level (3/10) = RiskTier.Medium ∧
    batch_risk_level (7/10) = some RiskTier.Medium ∧ risk_level (7/10) = RiskTier.High := by
  have hp : 0 < p := lt_of_le_of_ne h0 (Ne.symm hz)
  refine ⟨?_, by rw [batch_risk_level]; norm_num, by rw [batch_risk_level]; norm_num,
    by rw [risk_level]; norm_num, by rw [batch_risk_level]; norm_num,
    by rw [risk_level]; norm_num⟩
  rcases lt_trichotomy p (3/10) with hA | hA | hA
  · rw [batch_risk_level, if_pos ⟨hp, hA.le⟩, risk_level, if_pos hA]
  · exact absurd hA h3
  · rcases lt_trichotomy p (7/10) with hB | hB | hB
    · rw [batch_risk_level, if_neg (by push_neg; intro; linarith),
        if_pos ⟨hA, hB.le⟩, risk_level, if_neg (by linarith), if_pos hB]
    · exact absurd hB h7
    · rw [batch_risk_level, if_neg (by push_neg; intro; linarith),
        if_neg (by push_neg; intro; linarith), if_pos ⟨hB, h1⟩,
        risk_level, if_neg (by linarith), if_neg (by linarith)]

/-- C2 witness at p = 1/2. -/
theorem batch_tier_matches_single_off_boundaries_witness :
    ((0:Rat) ≤ 1/2 ∧ (1/2:Rat) ≤ 1 ∧ (1/2:Rat) ≠ 0 ∧ (1/2:Rat) ≠ 3/10 ∧ (1/2:Rat) ≠ 7/10) ∧
    batch_risk_level (1/2) = some (risk_level (1/2)) :=
  ⟨⟨by norm_num, by norm_num, by norm_num, by norm_num, by norm_num⟩,
   (batch_tier_matches_single_off_boundaries (1/2) (by norm_num) (by norm_num)
     (by norm_num) (by norm_num) (by norm_num)).1⟩

/-! ## C3 -/

theorem servicesCountCol_getD (a b c d : List Rat) (i : Nat)
    (ha : i < a.length) (hb : i < b.length) (hc : i < c.length) (hd : i < d.length) :
    (servicesCountCol a b c d).getD i 0 =
      a.getD i 0 + b.getD i 0 + c.getD i 0 + d.getD i 0 := by
  rw [servicesCountCol,
      zipWith_getD_of_lt _ _ _ _ (by simp [List.length_zipWith]; omega) hd,
      zipWith_getD_of_lt _ _ _ _ (by simp [List.length_zipWith]; omega) hc,
      zipWith_getD_of_lt _ _ _ _ ha hb]

theorem batchFeatureRows_getD (n i : Nat) (hi : i < n)
    (ten mon tot stv smov tsup osec : List Rat)
    (cEnc pEnc iEnc : List Nat) (avg cval scount : List Rat) :
    (batchFeatureRows n ten mon tot stv smov tsup osec cEnc pEnc iEnc avg cval scount).getD i [] =
      [ten.getD i 0, mon.getD i 0, tot.getD i 0,
       (cEnc.getD i 0 : Rat), (pEnc.getD i 0 : Rat), (iEnc.getD i 0 : Rat),
       stv.getD i 0, smov.getD i 0, tsup.getD i 0, osec.getD i 0,
       avg.getD i 0, cval.getD i 0, scount.getD i 0] := by
  rw [batchFeatureRows, List.getD_eq_getElem _ _ (by simpa using hi),
      List.getElem_map, List.getElem_range]

/-- C3: for every RawCustomerRecord the single-record path produces the
13-field feature vector in exactly the documented order with
avg_monthly_charge = total_charges/(tenure+1), contract_value =
monthly_charges·tenure and services_count the sum of the four flags (an
integer between 0 and 4 when the flags are 0/1); and the batch/training
derivation (`preprocess_data`) produces, for every row i of a table of
well-formed columns, the same 13 entries in the same order with the same
three formulas. -/
theorem feature_vector_order_and_formulas (r : RawCustomerRecord)
    (f1 : r.streaming_tv = 0 ∨ r.streaming_tv = 1)
    (f2 : r.streaming_movies = 0 ∨ r.streaming_movies = 1)
    (f3 : r.tech_support = 0 ∨ r.tech_support = 1)
    (f4 : r.online_security = 0 ∨ r.online_security = 1)
    (n i : Nat) (hi : i < n)
    (tenure monthly_charges total_charges : List Rat)
    (streaming_tv streaming_movies tech_support online_security : List Rat)
    (contract_type payment_method internet_service : List String)
    (l1 : tenure.length = n) (l2 : monthly_charges.length = n) (l3 : total_charges.length = n)
    (l4 : streaming_tv.length = n) (l5 : streaming_movies.length = n)
    (l6 : tech_support.length = n) (l7 : online_security.length = n)
    (l8 : contract_type.length = n) (l9 : payment_method.length = n)
    (l10 : internet_service.length = n) :
    featureVector r =
      [r.tenure, r.monthly_charges, r.total_charges,
       (encodeContract r.contract_type : Rat), (encodePayment r.payment_method : Rat),
       (encodeInternet r.internet_service : Rat),
       (r.streaming_tv : Rat), (r.streaming_movies : Rat),
       (r.tech_support : Rat), (r.online_security : Rat),
       r.total_charges / (r.tenure + 1), r.monthly_charges * r.tenure,
       ((r.streaming_tv + r.streaming_movies + r.tech_support + r.online_security : Int) : Rat)] ∧
    (featureVector r).length = 13 ∧
    (0 ≤ r.streaming_tv + r.streaming_movies + r.tech_support + r.online_security ∧
     r.streaming_tv + r.streaming_movies + r.tech_support + r.online_security ≤ 4) ∧
    (preprocess_data n tenure monthly_charges total_charges
        streaming_tv streaming_movies tech_support online_security
        contract_type payment_method internet_service).length = n ∧
    (preprocess_data n tenure monthly_charges total_charges
        streaming_tv streaming_movies tech_support online_security
        contract_type payment_method internet_service).getD i [] =
      [tenure.getD i 0, monthly_charges.getD i 0, total_charges.getD i 0,
       ((labelEncoderFitTransform contract_type).getD i 0 : Rat),
       ((labelEncoderFitTransform payment_method).getD i 0 : Rat),
       ((labelEncoderFitTransform internet_service).getD i 0 : Rat),
       streaming_tv.getD i 0, streaming_movies.getD i 0,
       tech_support.getD i 0, online_security.getD i 0,
       total_charges.getD i 0 / (tenure.getD i 0 + 1),
       monthly_charges.getD i 0 * tenure.getD i 0,
       streaming_tv.getD i 0 + streaming_movies.getD i 0 +
         tech_support.getD i 0 + online_security.getD i 0] := by
  refine ⟨rfl, rfl, ?_, ?_, ?_⟩
  · rcases f1 with h1 | h1 <;> rcases f2 with h2 | h2 <;> rcases f3 with h3 | h3 <;>
      rcases f4 with h4 | h4 <;> rw [h1, h2, h3, h4] <;> decide
  · rw [preprocess_data, batchFeatureRows]
    simp
  · rw [preprocess_data, batchFeatureRows_getD n i hi,
      avgMonthlyChargeCol, zipWith_getD_of_lt _ _ _ _ (by omega) (by omega),
      contractValueCol, zipWith_getD_of_lt _ _ _ _ (by omega) (by omega),
      servicesCountCol_getD _ _ _ _ _ (by omega) (by omega) (by omega) (by omega)]

/-- Concrete record of the spec's end-to-end scenario 1. -/
def scenarioOneRecord : RawCustomerRecord where
  tenure := 1
  monthly_charges := 20
  total_charges := 20
  contract_type := "Month-to-Month"
  payment_method := "Electronic check"
  internet_service := "Fiber optic"
  streaming_tv := 0
  streaming_movies := 0
  tech_support := 0
  online_security := 0

/-- C3 witness: the feature contract instantiated on the spec's scenario-1
record and the corresponding one-row table. -/
theorem feature_vector_order_and_formulas_witness :
    (featureVector scenarioOneRecord).length = 13 ∧
    (preprocess_data 1 [1] [20] [20] [0] [0] [0] [0]
      ["Month-to-Month"] ["Electronic check"] ["Fiber optic"]).length = 1 := by
  have h := feature_vector_order_and_formulas scenarioOneRecord
    (Or.inl rfl) (Or.inl rfl) (Or.inl rfl) (Or.inl rfl)
    1 0 (by decide) [1] [20] [20] [0] [0] [0] [0]
    ["Month-to-Month"] ["Electronic check"] ["Fiber optic"]
    rfl rfl rfl rfl rfl rfl rfl rfl rfl rfl
  exact ⟨h.2.1, h.2.2.2.1⟩

/-! ## C5 -/

/-- C5 counterexample: 0.3 and 0.5 both lie in the Medium tier, yet the two
probabilities produce different generic advice on the same request — the
generic advice in `get_recommendations` switches at 0.4 (strict) and 0.7
(strict), not at the 0.3/0.7 tier boundaries of the scorer. -/
theorem generic_advice_not_tier_cex :
    risk_level (3/10) = RiskTier.Medium ∧ risk_level (1/2) = RiskTier.Medium ∧
    get_recommendations (3/10) emptyRequest ≠ get_recommendations (1/2) emptyRequest := by
  refine ⟨by rw [risk_level]; norm_num, by rw [risk_level]; norm_num, ?_⟩
  rw [get_recommendations, get_recommendations]
  norm_num
  decide

/-- C5 (amended): the generic advice is a function of the bands cut at
p > 0.4 and p > 0.7 (strict) — any two probabilities on the same side of
both cuts yield identical recommendation lists on the same request — and the
conditional items hold exactly as claimed, keyed on the raw payload:
"Encourage upgrade to annual contract" is present iff the payload's
contract_type is (explicitly) Month-to-Month, and "Promote tech support
subscription" is present iff the payload's tech_support is (explicitly) 0. -/
theorem recommendations_bands_and_conditionals (p q : Rat) (d : PredictRequest)
    (h7 : p > 7/10 ↔ q > 7/10) (h4 : p > 4/10 ↔ q > 4/10) :
    get_recommendations p d = get_recommendations q d ∧
    ("📝 Encourage upgrade to annual contract" ∈ get_recommendations p d ↔
      d.contract_type = some "Month-to-Month") ∧
    ("🛠️  Promote tech support subscription" ∈ get_recommendations p d ↔
      d.tech_support = some 0) := by
  refine ⟨?_, ?_, ?_⟩
  · rw [get_recommendations, get_recommendations]
    simp only [h7, h4]
  · by_cases hp7 : p > 7/10 <;> by_cases hp4 : p > 4/10 <;>
      by_cases hc : d.contract_type = some "Month-to-Month" <;>
      by_cases hts : d.tech_support = some 0 <;>
      simp [get_recommendations, hp7, hp4, hc, hts]
  · by_cases hp7 : p > 7/10 <;> by_cases hp4 : p > 4/10 <;>
      by_cases hc : d.contract_type = some "Month-to-Month" <;>
      by_cases hts : d.tech_support = some 0 <;>
      simp [get_recommendations, hp7, hp4, hc, hts]

/-- C5 witness at p = q = 1/2 on the explicit-defaults payload. -/
theorem recommendations_bands_and_conditionals_witness :
    get_recommendations (1/2) explicitDefaultsRequest =
      get_recommendations (1/2) explicitDefaultsRequest ∧
    ("📝 Encourage upgrade to annual contract" ∈
        get_recommendations (1/2) explicitDefaultsRequest ↔
      explicitDefaultsRequest.contract_type = some "Month-to-Month") :=
  ⟨(recommendations_bands_and_conditionals (1/2) (1/2) explicitDefaultsRequest
      Iff.rfl Iff.rfl).1,
   (recommendations_bands_and_conditionals (1/2) (1/2) explicitDefaultsRequest
      Iff.rfl Iff.rfl).2.1⟩

/-! ## C6 -/

/-- C6 counterexample: the all-omitted payload and the payload supplying
every documented default explicitly yield the same validated record, yet
different ScoreResults under the same model: the conditional recommendations
read the raw payload, so "Encourage upgrade to annual contract" and
"Promote tech support subscription" appear only in the explicit variant. -/
theorem omitted_vs_explicit_defaults_cex :
    extractRecord emptyRequest = extractRecord explicitDefaultsRequest ∧
    api_predict_result (constModel (1/2)) emptyRequest ≠
      api_predict_result (constModel (1/2)) explicitDefaultsRequest := by
  have e1 : get_recommendations (1/2) emptyRequest =
      ["⚠️  Monitor closely for changes in usage patterns",
       "📧 Send targeted re-engagement email campaign",
       "🎁 Offer upgrade incentives or bundled services"] := by
    rw [get_recommendations]
    norm_num [emptyRequest]
  have e2 : get_recommendations (1/2) explicitDefaultsRequest =
      ["⚠️  Monitor closely for changes in usage patterns",
       "📧 Send targeted re-engagement email campaign",
       "🎁 Offer upgrade incentives or bundled services",
       "📝 Encourage upgrade to annual contract",
       "🛠️  Promote tech support subscription"] := by
    rw [get_recommendations]
    norm_num [explicitDefaultsRequest]
  refine ⟨rfl, fun h => ?_⟩
  have h2 := congrArg ScoreResult.recommendations h
  simp only [api_predict_result, constModel] at h2
  rw [e1, e2] at h2
  simp at h2

/-- C6 (amended): omitting any one of tenure, monthly_charges, total_charges,
payment_method, internet_service, streaming_tv, streaming_movies or
online_security yields the identical ScoreResult as supplying its documented
default explicitly; omitting contract_type (default Month-to-Month) or
tech_support (default 0) yields the same probability, binary prediction and
risk tier as supplying the default — the feature vector is identical — but
not necessarily the same recommendation list, since the conditional
recommendations fire only on explicitly supplied trigger values. -/
theorem omitted_field_default_equivalence (predictProba : List Rat → Rat)
    (d : PredictRequest) :
    api_predict_result predictProba { d with tenure := none } =
      api_predict_result predictProba { d with tenure := some 0 } ∧
    api_predict_result predictProba { d with monthly_charges := none } =
      api_predict_result predictProba { d with monthly_charges := some 0 } ∧
    api_predict_result predictProba { d with total_charges := none } =
      api_predict_result predictProba { d with total_charges := some 0 } ∧
    api_predict_result predictProba { d with payment_method := none } =
      api_predict_result predictProba { d with payment_method := some "Electronic check" } ∧
    api_predict_result predictProba { d with internet_service := none } =
      api_predict_result predictProba { d with internet_service := some "Fiber optic" } ∧
    api_predict_result predictProba { d with streaming_tv := none } =
      api_predict_result predictProba { d with streaming_tv := some 0 } ∧
    api_predict_result predictProba { d with streaming_movies := none } =
      api_predict_result predictProba { d with streaming_movies := some 0 } ∧
    api_predict_result predictProba { d with online_security := none } =
      api_predict_result predictProba { d with online_security := some 0 } ∧
    extractRecord { d with contract_type := none } =
      extractRecord { d with contract_type := some "Month-to-Month" } ∧
    (api_predict_result predictProba { d with contract_type := none }).churn_probability =
      (api_predict_result predictProba
        { d with contract_type := some "Month-to-Month" }).churn_probability ∧
    (api_predict_result predictProba { d with contract_type := none }).churn_prediction =
      (api_predict_result predictProba
        { d with contract_type := some "Month-to-Month" }).churn_prediction ∧
    (api_predict_result predictProba { d with contract_type := none }).risk_level =
      (api_predict_result predictProba
        { d with contract_type := some "Month-to-Month" }).risk_level ∧
    extractRecord { d with tech_support := none } =
      extractRecord { d with tech_support := some 0 } ∧
    (api_predict_result predictProba { d with tech_support := none }).churn_probability =
      (api_predict_result predictProba { d with tech_support := some 0 }).churn_probability ∧
    (api_predict_result predictProba { d with tech_support := none }).churn_prediction =
      (api_predict_result predictProba { d with tech_support := some 0 }).churn_prediction ∧
    (api_predict_result predictProba { d with tech_support := none }).risk_level =
      (api_predict_result predictProba { d with tech_support := some 0 }).risk_level := by
  refine ⟨?_, ?_, ?_, ?_, ?_, ?_, ?_, ?_, ?_, ?_, ?_, ?_, ?_, ?_, ?_, ?_⟩ <;>
    simp [api_predict_result, extractRecord, get_recommendations]

/-! ## C9 -/

/-- Mandatory batch upload columns (spec §6). -/
def requiredCols : List String :=
  ["tenure", "monthly_charges", "total_charges", "contract_type", "payment_method",
   "internet_service", "streaming_tv", "streaming_movies", "tech_support", "online_security"]

/-- Presence of a required column in the uploaded table, in the column family
(numeric or categorical) where the batch code reads it. -/
def hasRequiredCol (df : CsvTable) (name : String) : Bool :=
  if name ∈ (["contract_type", "payment_method", "internet_service"] : List String) then
    (df.strCols.find? (fun c => c.1 == name)).isSome
  else
    (df.numCols.find? (fun c => c.1 == name)).isSome

/-- A 3-row upload with every required column except `tenure`. -/
def threeRowsMissingTenure : CsvTable where
  nRows := 3
  numCols := [("monthly_charges", [20, 30, 40]), ("total_charges", [20, 60, 120]),
              ("streaming_tv", [0, 1, 0]), ("streaming_movies", [0, 1, 1]),
              ("tech_support", [0, 0, 1]), ("online_security", [1, 0, 0])]
  strCols := [("contract_type", ["Month-to-Month", "One year", "Two year"]),
              ("payment_method", ["Electronic check", "Mailed check", "Credit card"]),
              ("internet_service", ["DSL", "Fiber optic", "No"])]

/-- C9: a batch upload missing at least one required column makes the whole
call fail with the `KeyError`-derived validation error naming a missing
column, and no per-row results are returned; in particular the concrete
3-row table missing `tenure` fails identifying `tenure`. -/
theorem missing_column_aborts_batch (predictProba : List Rat → Rat) (df : CsvTable)
    (h : ∃ c ∈ requiredCols, hasRequiredCol df c = false) :
    (∃ c ∈ requiredCols, hasRequiredCol df c = false ∧
        api_batch_predict predictProba df = Except.error ("'" ++ c ++ "'")) ∧
    (∀ res, api_batch_predict predictProba df ≠ Except.ok res) ∧
    api_batch_predict (constModel (1/2)) threeRowsMissingTenure = Except.error "'tenure'" := by
  have hconc : api_batch_predict (constModel (1/2)) threeRowsMissingTenure =
      Except.error "'tenure'" := by
    simp [api_batch_predict, getNumCol, getStrCol, threeRowsMissingTenure, List.find?,
      bind, Except.bind]
  have main : ∃ c ∈ requiredCols, hasRequiredCol df c = false ∧
      api_batch_predict predictProba df = Except.error ("'" ++ c ++ "'") := by
    cases h1 : df.numCols.find? (fun c => c.1 == "total_charges") with
    | none =>
        exact ⟨"total_charges", by decide, by simp [hasRequiredCol, h1],
          by simp [api_batch_predict, getNumCol, bind, Except.bind, h1]⟩
    | some c1 =>
    cases h2 : df.numCols.find? (fun c => c.1 == "tenure") with
    | none =>
        exact ⟨"tenure", by decide, by simp [hasRequiredCol, h2],
          by simp [api_batch_predict, getNumCol, bind, Except.bind, h1, h2]⟩
    | some c2 =>
    cases h3 : df.numCols.find? (fun c => c.1 == "monthly_charges") with
    | none =>
        exact ⟨"monthly_charges", by decide, by simp [hasRequiredCol, h3],
          by simp [api_batch_predict, getNumCol, bind, Except.bind, h1, h2, h3]⟩
    | some c3 =>
    cases h4 : df.numCols.find? (fun c => c.1 == "streaming_tv") with
    | none =>
        exact ⟨"streaming_tv", by decide, by simp [hasRequiredCol, h4],
          by simp [api_batch_predict, getNumCol, bind, Except.bind, h1, h2, h3, h4]⟩
    | some c4 =>
    cases h5 : df.numCols.find? (fun c => c.1 == "streaming_movies") with
    | none =>
        exact ⟨"streaming_movies", by decide, by simp [hasRequiredCol, h5],
          by simp [api_batch_predict, getNumCol, bind, Except.bind, h1, h2, h3, h4, h5]⟩
    | some c5 =>
    cases h6 : df.numCols.find? (fun c => c.1 == "tech_support") with
    | none =>
        exact ⟨"tech_support", by decide, by simp [hasRequiredCol, h6],
          by simp [api_batch_predict, getNumCol, bind, Except.bind, h1, h2, h3, h4, h5, h6]⟩
    | some c6 =>
    cases h7 : df.numCols.find? (fun c => c.1 == "online_security") with
    | none =>
        exact ⟨"online_security", by decide, by simp [hasRequiredCol, h7],
          by simp [api_batch_predict, getNumCol, bind, Except.bind,
            h1, h2, h3, h4, h5, h6, h7]⟩
    | some c7 =>
    cases h8 : df.strCols.find? (fun c => c.1 == "contract_type") with
    | none =>
        exact ⟨"contract_type", by decide, by simp [hasRequiredCol, h8],
          by simp [api_batch_predict, getNumCol, getStrCol, bind, Except.bind,
            h1, h2, h3, h4, h5, h6, h7, h8]⟩
    | some c8 =>
    cases h9 : df.strCols.find? (fun c => c.1 == "payment_method") with
    | none =>
        exact ⟨"payment_method", by decide, by simp [hasRequiredCol, h9],
          by simp [api_batch_predict, getNumCol, getStrCol, bind, Except.bind,
            h1, h2, h3, h4, h5, h6, h7, h8, h9]⟩
    | some c9 =>
    cases h10 : df.strCols.find? (fun c => c.1 == "internet_service") with
    | none =>
        exact ⟨"internet_service", by decide, by simp [hasRequiredCol, h10],
          by simp [api_batch_predict, getNumCol, getStrCol, bind, Except.bind,
            h1, h2, h3, h4, h5, h6, h7, h8, h9, h10]⟩
    | some c10 =>
        exfalso
        obtain ⟨c, hc, hmiss⟩ := h
        simp only [requiredCols, List.mem_cons, List.not_mem_nil, or_false] at hc
        rcases hc with rfl | rfl | rfl | rfl | rfl | rfl | rfl | rfl | rfl | rfl <;>
          simp [hasRequiredCol, h1, h2, h3, h4, h5, h6, h7, h8, h9, h10] at hmiss
  refine ⟨main, ?_, hconc⟩
  obtain ⟨c, hc, hm, he⟩ := main
  intro res hres
  rw [he] at hres
  exact Except.noConfusion hres

/-- C9 witness: the concrete 3-row table without a tenure column. -/
theorem missing_column_aborts_batch_witness :
    (∃ c ∈ requiredCols, hasRequiredCol threeRowsMissingTenure c = false) ∧
    (∃ c ∈ requiredCols, hasRequiredCol threeRowsMissingTenure c = false ∧
      api_batch_predict (constModel (1/2)) threeRowsMissingTenure =
        Except.error ("'" ++ c ++ "'")) := by
  have hh : ∃ c ∈ requiredCols, hasRequiredCol threeRowsMissingTenure c = false :=
    ⟨"tenure", by decide, by decide⟩
  exact ⟨hh, (missing_column_aborts_batch (constModel (1/2)) threeRowsMissingTenure hh).1⟩
